import Mathlib

/-!
Shallow embedding of `docs/sphinx/conf.py`.

The script consists of three top-level statements:
1. `import subprocess`
2. `subprocess.call(<command string>, shell=True)`
3. `html_extra_path = ['../html']`

We embed the script as a list of statements executed by a small
interpreter over an explicit Python-process state (current working
directory, environment, module-level globals, and a trace of external
effects).  The behaviour of the external world (which executables exist
and what exit status each simple command produces) is a parameter
`World`; the child shell's evaluation of the `&&`-chained command string
is modelled by short-circuit left-to-right execution.
-/

namespace ConfPy

/-- The exact shell command string passed to `subprocess.call` in
`conf.py`.  In the Python source it is a triple-quoted literal whose
backslash-newline pairs are line continuations, so the string is a
single line of text chained with `&&`, framed by a leading and a
trailing newline plus indentation. -/
def commandString : String :=
  "\n    conda install --yes cmake &&     conda install --yes --channel conda-forge doxygen &&     PATH=$HOME/.conda/bin:$PATH &&     cd ../.. &&     cmake -DBUILD_DOC=ON . &&     make megafauna_docs\n    "

/-- Split a character sequence at each occurrence of `&&`. -/
def splitOnAmpAmp : List Char → List (List Char)
  | [] => [[]]
  | '&' :: '&' :: rest => [] :: splitOnAmpAmp rest
  | c :: rest =>
    match splitOnAmpAmp rest with
    | [] => [[c]]
    | g :: gs => (c :: g) :: gs

/-- Drop leading whitespace characters. -/
def dropLeadingWs : List Char → List Char
  | [] => []
  | c :: rest => if c.isWhitespace then dropLeadingWs rest else c :: rest

/-- Trim whitespace from both ends of a character sequence. -/
def trimChars (cs : List Char) : List Char :=
  (dropLeadingWs (dropLeadingWs cs).reverse).reverse

/-- Split a shell command on the `&&` operator and trim whitespace
around each step, yielding the simple commands of the chain in order. -/
def parseAndChain (cmd : String) : List String :=
  (splitOnAmpAmp cmd.data).map (fun cs => String.mk (trimChars cs))

/-- Characters of a command up to (excluding) the first space. -/
def firstWord : List Char → List Char
  | [] => []
  | c :: rest => if c = ' ' then [] else c :: firstWord rest

/-- The first whitespace-separated word of a simple command: its
executable name, or a `VAR=value` assignment. -/
def commandWord (c : String) : String :=
  String.mk (firstWord c.data)

/-- A first word containing `=` is a shell variable assignment. -/
def isAssignmentWord (s : String) : Bool :=
  s.data.contains '='

/-- `cd` is executed by the shell itself, not looked up on `PATH`. -/
def isShellBuiltin (s : String) : Bool :=
  s = "cd"

/-- The external world: which executables are installed, and the exit
status each simple command produces when it does run. -/
structure World where
  toolPresent : String → Bool
  runResult : String → Int

/-- Exit status of one simple command in the child shell: a plain
variable assignment succeeds, a builtin runs directly, an external
command runs only if its executable is present — otherwise the shell
reports `command not found` with status 127. -/
def stepStatus (w : World) (c : String) : Int :=
  if isAssignmentWord (commandWord c) then 0
  else if isShellBuiltin (commandWord c) then w.runResult c
  else if w.toolPresent (commandWord c) then w.runResult c
  else 127

/-- Short-circuit execution of an `&&` chain: each step runs only if
every earlier step exited with status 0.  Returns the chain's final exit
status and the list of steps that actually ran, in order. -/
def runAndChain (w : World) : List String → Int × List String
  | [] => (0, [])
  | c :: rest =>
    if stepStatus w c = 0 then
      ((runAndChain w rest).1, c :: (runAndChain w rest).2)
    else (stepStatus w c, [c])

/-- Exit status of the child shell spawned for `cmd`. -/
def runShellCommand (w : World) (cmd : String) : Int :=
  (runAndChain w (parseAndChain cmd)).1

/-- The simple commands of `cmd` that the child shell actually runs. -/
def executedSteps (w : World) (cmd : String) : List String :=
  (runAndChain w (parseAndChain cmd)).2

/-- A Python value occurring in the script (only a list of string
literals is ever assigned). -/
inductive PyValue
  | strList (xs : List String)
deriving DecidableEq, Repr

/-- An observable external effect of the Python process. -/
inductive Effect
  | subprocessCall (cmd : String) (shellMode : Bool) (exitStatus : Int)
deriving DecidableEq, Repr

/-- A top-level statement of `conf.py`. -/
inductive Stmt
  | importModule (name : String)
  | callSubprocess (cmd : String) (shellMode : Bool)
  | assign (name : String) (v : PyValue)
deriving DecidableEq, Repr

/-- State of the Python process: its own working directory and
environment, the module-level globals, and the trace of effects
performed so far (in order). -/
structure PyState where
  cwd : String
  env : List (String × String)
  globals : List (String × PyValue)
  trace : List Effect
deriving DecidableEq, Repr

/-- Bind a module-level variable, overwriting an existing binding. -/
def setVar : List (String × PyValue) → String → PyValue → List (String × PyValue)
  | [], n, v => [(n, v)]
  | (m, u) :: rest, n, v =>
    if m = n then (n, v) :: rest else (m, u) :: setVar rest n v

/-- Look up a module-level variable. -/
def lookupVar (g : List (String × PyValue)) (n : String) : Option PyValue :=
  (g.find? (fun p => p.1 = n)).map (fun p => p.2)

/-- Result of `subprocess.call`: with `shell=True` the command is handed
to a child shell, which always yields an exit status (a missing
executable is just status 127 from the shell); with `shell=False` a
missing executable raises `FileNotFoundError` in the Python process. -/
def subprocessCallResult (w : World) (cmd : String) (shellMode : Bool) :
    Except String Int :=
  match shellMode with
  | true => Except.ok (runShellCommand w cmd)
  | false =>
    if w.toolPresent (commandWord cmd) then Except.ok (w.runResult cmd)
    else Except.error "FileNotFoundError"

/-- Execute one statement.  An `import` of a standard-library module has
no observable effect; `subprocess.call` blocks until the child exits and
appends one effect to the trace, leaving the parent's working directory
and environment untouched; an assignment updates the globals. -/
def execStmt (w : World) (s : PyState) : Stmt → Except String PyState
  | .importModule _ => Except.ok s
  | .callSubprocess cmd sh =>
    match subprocessCallResult w cmd sh with
    | Except.ok status =>
      Except.ok { s with trace := s.trace ++ [Effect.subprocessCall cmd sh status] }
    | Except.error e => Except.error e
  | .assign n v => Except.ok { s with globals := setVar s.globals n v }

/-- Execute statements in order, stopping at the first uncaught
exception. -/
def execProgram (w : World) : PyState → List Stmt → Except String PyState
  | s, [] => Except.ok s
  | s, st :: rest =>
    match execStmt w s st with
    | Except.ok s2 => execProgram w s2 rest
    | Except.error e => Except.error e

/-- The three top-level statements of `conf.py`, in source order. -/
def confProgram : List Stmt :=
  [ Stmt.importModule "subprocess"
  , Stmt.callSubprocess commandString true
  , Stmt.assign "html_extra_path" (PyValue.strList ["../html"]) ]

/-- Initial state of a run of the script: empty globals and trace, with
the working directory and environment inherited from the host. -/
def initState (cwd : String) (env : List (String × String)) : PyState :=
  { cwd := cwd, env := env, globals := [], trace := [] }

/-- Run `conf.py` from a given host working directory and environment. -/
def runConf (w : World) (cwd : String) (env : List (String × String)) :
    Except String PyState :=
  execProgram w (initState cwd env) confProgram

/-- Resolve one path segment against a stack of segments, handling `..`
and `.` the way a filesystem path is normalised. -/
def pushSeg (stack : List String) (seg : String) : List String :=
  if seg = "" || seg = "." then stack
  else if seg = ".." then stack.dropLast
  else stack ++ [seg]

/-- Split a character sequence at each occurrence of a separator. -/
def splitOnChar (sep : Char) : List Char → List (List Char)
  | [] => [[]]
  | c :: rest =>
    if c = sep then [] :: splitOnChar sep rest
    else
      match splitOnChar sep rest with
      | [] => [[c]]
      | g :: gs => (c :: g) :: gs

/-- The `/`-separated segments of a path. -/
def pathSegs (p : String) : List String :=
  (splitOnChar '/' p.data).map (fun cs => String.mk cs)

/-- Resolve a relative path against a base directory and normalise the
result. -/
def resolvePath (base rel : String) : String :=
  String.intercalate "/" ((pathSegs (base ++ "/" ++ rel)).foldl pushSeg [])

/-- The directory holding `conf.py`, relative to the repository root. -/
def confDir : String := "docs/sphinx"

/-- Modelled from the spec: the CMake/Doxygen build invoked by the
command string is external to the repository fragment (its CMakeLists is
not among the sources), and per the spec and the comment in `conf.py` it
generates the documentation in `docs/html` relative to the repository
root. -/
def buildOutputDir : String := "docs/html"

/-- The six simple commands of the `&&` chain, in order. -/
def chainSteps : List String :=
  [ "conda install --yes cmake"
  , "conda install --yes --channel conda-forge doxygen"
  , "PATH=$HOME/.conda/bin:$PATH"
  , "cd ../.."
  , "cmake -DBUILD_DOC=ON ."
  , "make megafauna_docs" ]

/-- Recognise the subprocess-invocation effect in a trace. -/
def isSubprocessEffect : Effect → Bool
  | .subprocessCall _ _ _ => true

theorem parseAndChain_commandString : parseAndChain commandString = chainSteps := by
  decide

/-- Full characterization of a run of the script: it terminates without
an exception, performs exactly one subprocess invocation (whose exit
status is whatever the child shell yields for the command string), binds
`html_extra_path` to `['../html']`, and leaves the host working
directory and environment untouched. -/
theorem runConf_ok (w : World) (cwd : String) (env : List (String × String)) :
    runConf w cwd env = Except.ok
      { cwd := cwd, env := env
      , globals := [("html_extra_path", PyValue.strList ["../html"])]
      , trace := [Effect.subprocessCall commandString true
          (runShellCommand w commandString)] } := rfl

/-- In the world where every tool is present and every simple command
exits with status `k`, the child shell's overall exit status is `k`:
every exit status is realisable, so quantifying over worlds quantifies
over all exit statuses of the child shell. -/
theorem shell_status_any (k : Int) :
    runShellCommand ⟨fun _ => true, fun _ => k⟩ commandString = k := by
  unfold runShellCommand
  rw [parseAndChain_commandString]
  by_cases hk : k = 0
  · subst hk
    rfl
  · have h1 : stepStatus ⟨fun _ => true, fun _ => k⟩ "conda install --yes cmake" = k := rfl
    simp only [chainSteps, runAndChain, h1, if_neg hk]

/-- Claim C1: for every world, working directory and environment, the
single subprocess invocation passes the fixed constant command string,
and that string's shell chain consists, in order, of a conda
installation of cmake, a conda installation of doxygen from the
conda-forge channel, a PATH assignment, a directory change, a cmake
invocation with the flag `BUILD_DOC=ON`, and `make megafauna_docs`. -/
theorem C1_command_string_fixed (w : World) (cwd : String)
    (env : List (String × String)) :
    (∃ s, runConf w cwd env = Except.ok s ∧
        s.trace = [Effect.subprocessCall commandString true
          (runShellCommand w commandString)]) ∧
    parseAndChain commandString =
      [ "conda install --yes cmake"
      , "conda install --yes --channel conda-forge doxygen"
      , "PATH=$HOME/.conda/bin:$PATH"
      , "cd ../.."
      , "cmake -DBUILD_DOC=ON ."
      , "make megafauna_docs" ] :=
  ⟨⟨_, runConf_ok w cwd env, rfl⟩, parseAndChain_commandString⟩

/-- Claim C2: every exit status of the child shell is realised by some
world, and for every world the script never inspects that status: it
does not abort and still reaches the assignment binding
`html_extra_path` to `['../html']`. -/
theorem C2_exit_status_never_inspected :
    (∀ k : Int, ∃ w : World, runShellCommand w commandString = k) ∧
    (∀ (w : World) (cwd : String) (env : List (String × String)),
      ∃ s, runConf w cwd env = Except.ok s ∧
        lookupVar s.globals "html_extra_path" = some (PyValue.strList ["../html"])) :=
  ⟨fun k => ⟨⟨fun _ => true, fun _ => k⟩, shell_status_any k⟩,
   fun w cwd env => ⟨_, runConf_ok w cwd env, rfl⟩⟩

/-- Claim C3: when the external tools (conda, cmake, make, doxygen) are
absent, the command runs through a shell (`shell=True`), so the missing
executable only makes the child shell exit with status 127
(`command not found`); the script raises no exception and completes
normally. -/
theorem C3_no_exception_when_tools_absent (w : World) (cwd : String)
    (env : List (String × String))
    (hconda : w.toolPresent "conda" = false)
    (hcmake : w.toolPresent "cmake" = false)
    (hmake : w.toolPresent "make" = false)
    (hdoxygen : w.toolPresent "doxygen" = false) :
    ∃ s, runConf w cwd env = Except.ok s ∧
      s.trace = [Effect.subprocessCall commandString true 127] := by
  have h1 : stepStatus w "conda install --yes cmake" = 127 := by
    have hw : commandWord "conda install --yes cmake" = "conda" := rfl
    unfold stepStatus
    rw [hw, hconda]
    rfl
  have hstat : runShellCommand w commandString = 127 := by
    unfold runShellCommand
    rw [parseAndChain_commandString]
    simp only [chainSteps, runAndChain, h1]
    rw [if_neg (by decide : ¬((127 : Int) = 0))]
  exact ⟨_, runConf_ok w cwd env, by rw [← hstat]⟩

/-- Witness for C3: in the world with no tool installed, the run
completes and records the single shell invocation exiting with 127. -/
theorem C3_witness :
    ∃ s, runConf ⟨fun _ => false, fun _ => 0⟩ "docs/sphinx" [] = Except.ok s ∧
      s.trace = [Effect.subprocessCall commandString true 127] :=
  C3_no_exception_when_tools_absent ⟨fun _ => false, fun _ => 0⟩ "docs/sphinx" []
    rfl rfl rfl rfl

/-- Claim C4: the script binds `html_extra_path` to `['../html']`, and
that relative path, resolved against the configuration file's directory
`docs/sphinx`, is exactly the `docs/html` directory in which the
external CMake/Doxygen build generates the documentation. -/
theorem C4_extra_path_matches_build_output (w : World) (cwd : String)
    (env : List (String × String)) :
    (∃ s, runConf w cwd env = Except.ok s ∧
        lookupVar s.globals "html_extra_path" = some (PyValue.strList ["../html"])) ∧
    resolvePath confDir "../html" = buildOutputDir :=
  ⟨⟨_, runConf_ok w cwd env, rfl⟩, by decide⟩

/-- Claim C5: the top-level behaviour is exactly the sequence: build the
command string, invoke it synchronously in one subprocess call, then set
`html_extra_path`; the final state shows no other observable action —
the trace holds exactly the one invocation and the globals exactly the
one binding, while working directory and environment are untouched. -/
theorem C5_toplevel_sequence (w : World) (cwd : String)
    (env : List (String × String)) :
    runConf w cwd env = Except.ok
      { cwd := cwd, env := env
      , globals := [("html_extra_path", PyValue.strList ["../html"])]
      , trace := [Effect.subprocessCall commandString true
          (runShellCommand w commandString)] } :=
  runConf_ok w cwd env

/-- Claim C6: `html_extra_path` is the sole module-level configuration
variable the script assigns, and its value is the single-element list
`['../html']`; the final globals hold exactly this one binding. -/
theorem C6_sole_config_variable (w : World) (cwd : String)
    (env : List (String × String)) :
    ∃ s, runConf w cwd env = Except.ok s ∧
      s.globals = [("html_extra_path", PyValue.strList ["../html"])] :=
  ⟨_, runConf_ok w cwd env, rfl⟩

/-- Claim C7: in every run the external process is invoked exactly once
— the trace contains exactly one subprocess effect — regardless of the
child's exit status, so there is no retry or re-invocation. -/
theorem C7_exactly_one_invocation (w : World) (cwd : String)
    (env : List (String × String)) :
    ∃ s, runConf w cwd env = Except.ok s ∧
      (s.trace.filter isSubprocessEffect).length = 1 :=
  ⟨_, runConf_ok w cwd env, rfl⟩

/-- Claim C8: the command string chains its steps with `&&`, so the
child shell runs `make megafauna_docs` only if the two conda
installations, the PATH assignment, the directory change and the cmake
configuration step all exited with status 0. -/
theorem C8_make_runs_only_after_all_earlier_succeed (w : World)
    (h : "make megafauna_docs" ∈ executedSteps w commandString) :
    stepStatus w "conda install --yes cmake" = 0 ∧
    stepStatus w "conda install --yes --channel conda-forge doxygen" = 0 ∧
    stepStatus w "PATH=$HOME/.conda/bin:$PATH" = 0 ∧
    stepStatus w "cd ../.." = 0 ∧
    stepStatus w "cmake -DBUILD_DOC=ON ." = 0 := by
  have h3 : stepStatus w "PATH=$HOME/.conda/bin:$PATH" = 0 := rfl
  unfold executedSteps at h
  rw [parseAndChain_commandString] at h
  simp only [chainSteps] at h
  by_cases h1 : stepStatus w "conda install --yes cmake" = 0
  · by_cases h2 : stepStatus w "conda install --yes --channel conda-forge doxygen" = 0
    · by_cases h4 : stepStatus w "cd ../.." = 0
      · by_cases h5 : stepStatus w "cmake -DBUILD_DOC=ON ." = 0
        · exact ⟨h1, h2, h3, h4, h5⟩
        · exfalso
          simp only [runAndChain, if_pos h1, if_pos h2, if_pos h3, if_pos h4,
            if_neg h5] at h
          exact absurd h (by decide)
      · exfalso
        simp only [runAndChain, if_pos h1, if_pos h2, if_pos h3, if_neg h4] at h
        exact absurd h (by decide)
    · exfalso
      simp only [runAndChain, if_pos h1, if_neg h2] at h
      exact absurd h (by decide)
  · exfalso
    simp only [runAndChain, if_neg h1] at h
    exact absurd h (by decide)

/-- Witness for C8: in the world where every tool is present and every
command succeeds, `make megafauna_docs` is reached, and indeed every
earlier step has status 0. -/
theorem C8_witness :
    stepStatus ⟨fun _ => true, fun _ => 0⟩ "conda install --yes cmake" = 0 ∧
    stepStatus ⟨fun _ => true, fun _ => 0⟩
      "conda install --yes --channel conda-forge doxygen" = 0 ∧
    stepStatus ⟨fun _ => true, fun _ => 0⟩ "PATH=$HOME/.conda/bin:$PATH" = 0 ∧
    stepStatus ⟨fun _ => true, fun _ => 0⟩ "cd ../.." = 0 ∧
    stepStatus ⟨fun _ => true, fun _ => 0⟩ "cmake -DBUILD_DOC=ON ." = 0 :=
  C8_make_runs_only_after_all_earlier_succeed ⟨fun _ => true, fun _ => 0⟩ (by decide)

/-- Claim C9: the `cd ../..` and PATH assignment take effect only inside
the child shell: after the subprocess call the Python process's own
working directory and environment are exactly the initial ones, so the
relative path `../html` is still resolved against the configuration
file's directory. -/
theorem C9_parent_cwd_env_unchanged (w : World) (cwd : String)
    (env : List (String × String)) :
    ∃ s, runConf w cwd env = Except.ok s ∧ s.cwd = cwd ∧ s.env = env ∧
      resolvePath s.cwd "../html" = resolvePath cwd "../html" :=
  ⟨_, runConf_ok w cwd env, rfl, rfl, rfl⟩

/-- Claim C10: the configuration output is deterministic: any two runs —
whatever their worlds, working directories or environments, and hence
whatever the subprocess exit statuses — bind `html_extra_path` to the
same constant `['../html']`. -/
theorem C10_config_deterministic (w1 w2 : World) (cwd1 cwd2 : String)
    (env1 env2 : List (String × String)) :
    ∃ s1 s2, runConf w1 cwd1 env1 = Except.ok s1 ∧
      runConf w2 cwd2 env2 = Except.ok s2 ∧
      lookupVar s1.globals "html_extra_path" = some (PyValue.strList ["../html"]) ∧
      lookupVar s1.globals "html_extra_path" = lookupVar s2.globals "html_extra_path" :=
  ⟨_, _, runConf_ok w1 cwd1 env1, runConf_ok w2 cwd2 env2, rfl, rfl⟩

end ConfPy
